import Mathlib

/-!
Verification of the RAG orchestration and caching pipeline of the
chatbot-rag-server repository: cache-key derivation, the Redis-backed
cache service, the Qdrant-backed vector-store service, and the LLM
orchestrator (`generate` / `generateWithContext`), shallowly embedded
from the TypeScript sources.  Collaborator calls (Redis client, Qdrant
HTTP API, Ollama backend) are modelled as oracle functions returning
`Except String`, mirroring a JS call that either resolves or rejects
with an error message.  JS strings are modelled at the code-unit level
via `Char.toNat` (exact for the BMP inputs this service handles).
-/

/-! ### JS numeric and string primitives used by the cache-key codec -/

/-- Coerce an integer to JS 32-bit signed semantics (the effect of the
bitwise operators in `hashPrompt`). -/
def toInt32 (x : Int) : Int :=
  let m := x % 4294967296
  if m < 2147483648 then m else m - 4294967296

/-- One step of the rolling hash: `hash = ((hash << 5) - hash) + char;
hash = hash & hash`.  `<< 5` wraps to int32, the subtraction and
addition are exact, and `& hash` wraps the result to int32. -/
def hashStep (h : Int) (c : Nat) : Int :=
  toInt32 (toInt32 (h * 32) - h + c)

/-- Digit character for base-36 rendering (`0-9` then `a-z`),
as produced by JS `Number.prototype.toString(36)`. -/
def digit36 (n : Nat) : Char :=
  if n < 10 then Char.ofNat (48 + n) else Char.ofNat (87 + n)

/-- Digits of `n` in base 36, most significant first; the fuel argument
only bounds the recursion depth and is sufficient whenever
`n <= fuel`. -/
def base36CharsAux : Nat → Nat → List Char
  | 0, n => [digit36 (n % 36)]
  | fuel + 1, n =>
    if n < 36 then [digit36 n]
    else base36CharsAux fuel (n / 36) ++ [digit36 (n % 36)]

/-- `n.toString(36)` for a natural number. -/
def toBase36 (n : Nat) : String :=
  String.mk (base36CharsAux n n)

/-- `hashPrompt` from `LLMService` (identical code also appears in
`CacheService`): rolling 32-bit hash of the prompt, absolute value,
rendered in base 36. -/
def hashPrompt (s : String) : String :=
  toBase36 (s.data.foldl (fun h c => hashStep h c.toNat) 0).natAbs

/-- The model identifier the service constructs its `Ollama` client with. -/
def modelName : String := "mistral:7b-instruct-v0.2-q3_K_S"

/-- `LLMService.createCacheKey`: `llm:${model}:temp${temperature}:${hash}`
with the service's fixed model and temperature 0.7. -/
def createCacheKey (prompt : String) : String :=
  "llm:" ++ modelName ++ ":temp0.7:" ++ hashPrompt prompt

/-- Fractional decimal digits of `num/den` (0 <= num < den), stopping at a
zero remainder or after `fuel` digits; models JS rendering of the
terminating decimals this service uses. -/
def fracDigits (fuel num den : Nat) : String :=
  match fuel, num with
  | 0, _ => ""
  | _, 0 => ""
  | fuel + 1, num =>
    toString (num * 10 / den) ++ fracDigits fuel (num * 10 % den) den

/-- JS template-literal rendering of a number, modelled on exact
rationals: integers print without a decimal point, other values print
their (terminating) decimal expansion. -/
def jsRenderRat (q : Rat) : String :=
  if q.den = 1 then toString q.num
  else
    (if q.num < 0 then "-" else "") ++
      toString (q.num.natAbs / q.den) ++ "." ++
      fracDigits 17 (q.num.natAbs % q.den) q.den

/-- Left-pad to three digits. -/
def pad3 (n : Nat) : String :=
  if n < 10 then "00" ++ toString n
  else if n < 100 then "0" ++ toString n
  else toString n

/-- JS `score.toFixed(3)`: round to three decimal places (half away
from zero) and render with exactly three fractional digits. -/
def ratToFixed3 (q : Rat) : String :=
  let a : Rat := if q < 0 then -q else q
  let n : Nat := (a * 1000 + 1 / 2).floor.toNat
  (if q < 0 then "-" else "") ++ toString (n / 1000) ++ "." ++ pad3 (n % 1000)

/-- The payload string hashed for RAG cache keys:
`rag:${prompt}:docs${maxDocs}:score${minScore}`. -/
def ragPayload (prompt : String) (maxDocs : Nat) (minScore : Rat) : String :=
  "rag:" ++ prompt ++ ":docs" ++ toString maxDocs ++ ":score" ++ jsRenderRat minScore

/-- The RAG cache key: `createCacheKey` applied to the RAG payload
(`generateWithContext`, line 410). -/
def ragCacheKey (prompt : String) (maxDocs : Nat) (minScore : Rat) : String :=
  createCacheKey (ragPayload prompt maxDocs minScore)

/-- Glob match for the namespace-scoped flush patterns the service uses
(`llm:*`, `cache:*`): the pattern body is a literal prefix of the key. -/
def globPrefixMatch (ns key : String) : Bool :=
  ns.data.isPrefixOf key.data

/-! ### Backend response values and text extraction (`extractResponseText`) -/

/-- A JS value as observed by `extractResponseText`: a string, a number,
`null`, or an object exposing the five conventional text-bearing fields
(`content`, `text`, `message`, `output`, `response`).  `toStr` is the
result of calling the object's `toString` method (the default object
`toString` yields `[object Object]`). -/
inductive JSValue where
  | str (s : String)
  | num (n : Int)
  | nullv
  | obj (content text message output response : Option JSValue) (toStr : String)

/-- JS truthiness of a value: empty strings, zero and `null` are falsy;
objects are always truthy. -/
def truthy : JSValue → Bool
  | .str s => s ≠ ""
  | .num n => n ≠ 0
  | .nullv => false
  | .obj _ _ _ _ _ _ => true

/-- JS `String(v)`: strings are themselves, numbers print in decimal,
`null` prints `null`, and an object yields its `toString` result. -/
def jsToString : JSValue → String
  | .str s => s
  | .num n => toString n
  | .nullv => "null"
  | .obj _ _ _ _ _ ts => ts

/-- `if (response.field) return String(response.field)`: the field must
be present and truthy to be selected. -/
def tryField (f : Option JSValue) : Option String :=
  match f with
  | some v => if truthy v then some (jsToString v) else none
  | none => none

/-- `LLMService.extractResponseText`: a string is returned as is; a
non-null object is probed for `content`, `text`, `message`, `output`,
`response` in that order (each via a JS truthiness test), then its
`toString` result is used if it differs from `[object Object]`;
otherwise, and for every non-object value, `String(response)`. -/
def extractResponseText (response : JSValue) : String :=
  match response with
  | .str s => s
  | .obj c t m o r ts =>
    match tryField c with
    | some s => s
    | none =>
      match tryField t with
      | some s => s
      | none =>
        match tryField m with
        | some s => s
        | none =>
          match tryField o with
          | some s => s
          | none =>
            match tryField r with
            | some s => s
            | none =>
              if ts ≠ "[object Object]" then ts
              else jsToString (JSValue.obj c t m o r ts)
  | v => jsToString v

/-- Text extraction as the claim words it: the value itself if it is a
string, otherwise the string conversion of the first PRESENT field in
the fixed order `content`, `text`, `message`, `output`, `response`
(ignoring truthiness), otherwise a best-effort string conversion. -/
def claimedExtractText (response : JSValue) : String :=
  match response with
  | .str s => s
  | .obj c t m o r ts =>
    match List.findSome? (fun f => Option.map jsToString f) [c, t, m, o, r] with
    | some s => s
    | none => if ts ≠ "[object Object]" then ts else ts
  | v => jsToString v

/-- Text extraction as amended: like `claimedExtractText` but a field is
selected only when it is present AND truthy in the JS sense, matching
the `if (response.field)` tests in the source. -/
def amendedExtractText (response : JSValue) : String :=
  match response with
  | .str s => s
  | .obj c t m o r ts =>
    match List.findSome? tryField [c, t, m, o, r] with
    | some s => s
    | none => if ts ≠ "[object Object]" then ts else ts
  | v => jsToString v

/-! ### The underlying Redis keyspace (pure state model, for key addressing) -/

/-- The Redis string keyspace: a partial map from keys to values. -/
abbrev Store := String → Option String

/-- Direct `client.get(key)`. -/
def storeGet (st : Store) (k : String) : Option String := st k

/-- Direct `client.set(key, value)` (or `setEx`; the TTL does not affect
which key is written). -/
def storeSet (st : Store) (k v : String) : Store :=
  fun q => if q = k then some v else st q

/-- `SimpleCacheAdapter.update`: writes under `cache:${key}`. -/
def adapterStoreUpdate (st : Store) (k v : String) : Store :=
  storeSet st ("cache:" ++ k) v

/-- `SimpleCacheAdapter.lookup`: reads `cache:${key}`. -/
def adapterStoreLookup (st : Store) (k : String) : Option String :=
  storeGet st ("cache:" ++ k)

/-! ### CacheService over a fallible Redis client (error plumbing) -/

/-- The Redis client operations `CacheService` performs, as oracles that
either resolve or reject.  `connectOk` is the outcome of
`ensureConnection`. -/
structure RedisClient where
  connectOk : Except String Unit
  rGet : String → Except String (Option String)
  rSetEx : String → Nat → String → Except String Unit
  rSet : String → String → Except String Unit
  rDel : String → Except String Unit
  rDelMany : List String → Except String Unit
  rExists : String → Except String Nat
  rExpire : String → Nat → Except String Unit
  rKeys : String → Except String (List String)

/-- `SimpleCacheAdapter.lookup`: `get` on the prefixed key, catching any
error and returning `null`. -/
def adapterLookup (c : RedisClient) (key : String) : Except String (Option String) :=
  match c.rGet ("cache:" ++ key) with
  | .error _ => .ok none
  | .ok v => .ok v

/-- `SimpleCacheAdapter.update`: `setEx` on the prefixed key with the
3600s TTL, then the verification `get`; any error is rethrown. -/
def adapterUpdate (c : RedisClient) (key value : String) : Except String Unit :=
  match c.rSetEx ("cache:" ++ key) 3600 value with
  | .error e => .error e
  | .ok _ =>
    match c.rGet ("cache:" ++ key) with
    | .error e => .error e
    | .ok _ => .ok ()

/-- `CacheService.lookup`: ensure connection, delegate to the adapter,
catch any error and return `null`. -/
def csLookup (c : RedisClient) (key : String) : Except String (Option String) :=
  match c.connectOk with
  | .error _ => .ok none
  | .ok _ =>
    match adapterLookup c key with
    | .error _ => .ok none
    | .ok v => .ok v

/-- `CacheService.update`: ensure connection, delegate to the adapter,
rethrow any error. -/
def csUpdate (c : RedisClient) (key value : String) : Except String Unit :=
  match c.connectOk with
  | .error e => .error e
  | .ok _ => adapterUpdate c key value

/-- `CacheService.get`: direct `get`, returning `null` on any error. -/
def csGet (c : RedisClient) (key : String) : Except String (Option String) :=
  match c.connectOk with
  | .error _ => .ok none
  | .ok _ =>
    match c.rGet key with
    | .error _ => .ok none
    | .ok v => .ok v

/-- `CacheService.set`: `setEx` when a (truthy) TTL is given, plain
`set` otherwise; errors are rethrown. -/
def csSet (c : RedisClient) (key value : String) (ttl : Option Nat) : Except String Unit :=
  match c.connectOk with
  | .error e => .error e
  | .ok _ =>
    match ttl with
    | some t => if t = 0 then c.rSet key value else c.rSetEx key t value
    | none => c.rSet key value

/-- `CacheService.del`: errors are rethrown. -/
def csDel (c : RedisClient) (key : String) : Except String Unit :=
  match c.connectOk with
  | .error e => .error e
  | .ok _ => c.rDel key

/-- `CacheService.exists`: `result === 1`, returning `false` on any
error. -/
def csExists (c : RedisClient) (key : String) : Except String Bool :=
  match c.connectOk with
  | .error _ => .ok false
  | .ok _ =>
    match c.rExists key with
    | .error _ => .ok false
    | .ok r => .ok (r == 1)

/-- `CacheService.expire`: errors are rethrown. -/
def csExpire (c : RedisClient) (key : String) (ttl : Nat) : Except String Unit :=
  match c.connectOk with
  | .error e => .error e
  | .ok _ => c.rExpire key ttl

/-- `CacheService.flushCache`: list keys matching the pattern, delete
them when the list is non-empty; errors are rethrown. -/
def csFlushCache (c : RedisClient) (pattern : String) : Except String Unit :=
  match c.connectOk with
  | .error e => .error e
  | .ok _ =>
    match c.rKeys pattern with
    | .error e => .error e
    | .ok keys => if keys.isEmpty then .ok () else c.rDelMany keys

/-! ### The LLM orchestrator (`LLMService.generate` / `generateWithContext`) -/

/-- A retrieved document as the orchestrator sees it: page content, the
optional `metadata.source`, and the score attached by the
`includeScores` path. -/
structure Doc where
  pageContent : String
  source : Option String
  score : Option Rat
deriving DecidableEq, Repr

/-- `{...doc, score}`: attach a score to a document. -/
def setScore (d : Doc) (s : Rat) : Doc := { d with score := some s }

/-- Externally observable calls the orchestrator makes, in order. -/
inductive Event where
  | cacheLookup (key : String)
  | cacheStore (key : String) (value : String)
  | backendInvoke (prompt : String)
  | vectorSearch (query : String) (k : Nat)
deriving DecidableEq, Repr

/-- The orchestrator's collaborators.  `cacheAvailable` models whether
`this.cacheService` is non-null; the cache calls reject or resolve as
the Redis layer does; `ollamaInvoke` is the generation backend; the two
vector-store searches are total because `VectorStoreService` never
rejects from them (see `similaritySearchE` below). -/
structure Env where
  cacheAvailable : Bool
  cacheLookup : String → Except String (Option String)
  cacheUpdate : String → String → Except String Unit
  ollamaInvoke : String → Except String JSValue
  vsReady : Bool
  vsSearch : String → Nat → List Doc
  vsSearchWithScore : String → Nat → List (Doc × Rat)

/-- `Error generating response: ${message}`. -/
def degradedMsg (e : String) : String :=
  "Error generating response: " ++ e

/-- The cache-miss tail of `generate`: invoke the backend, extract the
text, then best-effort cache (the update sits in its own try/catch, so
its failure is logged, never rethrown), and return the text. -/
def generateMissPath (env : Env) (prompt cacheKey : String) (evs : List Event) :
    Except String String × List Event :=
  match env.ollamaInvoke prompt with
  | .error e => (.error e, evs ++ [.backendInvoke prompt])
  | .ok resp =>
    let responseText := extractResponseText resp
    let evs := evs ++ [.backendInvoke prompt]
    if env.cacheAvailable then
      match env.cacheUpdate cacheKey responseText with
      | .error _ => (.ok responseText, evs ++ [.cacheStore cacheKey responseText])
      | .ok _ => (.ok responseText, evs ++ [.cacheStore cacheKey responseText])
    else
      (.ok responseText, evs)

/-- The try-block of `generate`: compute the key; when a cache service
exists, look the key up (`if (cached)` is a JS truthiness test, so
`null` and the empty string both fall through to generation) and return
a truthy hit; otherwise generate. -/
def generateBody (env : Env) (prompt : String) : Except String String × List Event :=
  let cacheKey := createCacheKey prompt
  if env.cacheAvailable then
    match env.cacheLookup cacheKey with
    | .error e => (.error e, [.cacheLookup cacheKey])
    | .ok (some cached) =>
      if cached ≠ "" then (.ok cached, [.cacheLookup cacheKey])
      else generateMissPath env prompt cacheKey [.cacheLookup cacheKey]
    | .ok none => generateMissPath env prompt cacheKey [.cacheLookup cacheKey]
  else
    generateMissPath env prompt cacheKey []

/-- `LLMService.generate`: the try-block result, with any rejection
converted by the catch-block into the degraded
`Error generating response: ...` string. -/
def generate (env : Env) (prompt : String) : String × List Event :=
  match generateBody env prompt with
  | (.ok s, evs) => (s, evs)
  | (.error e, evs) => (degradedMsg e, evs)

/-- Step 2 of `generateWithContext`: retrieve the relevant documents.
With `includeScores` the scored search is filtered by
`score >= minScore` and the scores are attached; otherwise the plain
search result is used as is. -/
def retrieveDocs (env : Env) (prompt : String) (maxDocs : Nat) (minScore : Rat)
    (includeScores : Bool) : List Doc :=
  if includeScores then
    ((env.vsSearchWithScore prompt maxDocs).filter (fun ds => minScore ≤ ds.2)).map
      (fun ds => setScore ds.1 ds.2)
  else
    env.vsSearch prompt maxDocs

/-- Step 4 of `generateWithContext`: render one document block.  Both
the `source` fallback and the score suffix are JS truthiness tests, so
an empty source string and a zero score use the fallback. -/
def renderDocBlock (idx : Nat) (d : Doc) : String :=
  let source :=
    match d.source with
    | some s => if s ≠ "" then s else "Document " ++ toString (idx + 1)
    | none => "Document " ++ toString (idx + 1)
  let scorePart :=
    match d.score with
    | some sc =>
      if sc ≠ 0 then " (relevance: " ++ ratToFixed3 sc ++ ")" else ""
    | none => ""
  "SOURCE: " ++ source ++ scorePart ++ "\nCONTENT: " ++ d.pageContent

/-- Step 4: the documents joined by the visible delimiter. -/
def buildContext (docs : List Doc) : String :=
  String.intercalate "\n\n---\n\n" (docs.mapIdx (fun i d => renderDocBlock i d))

/-- Step 5: the augmented prompt, exactly as the template literal in the
source renders it (including the indentation its continuation lines
carry). -/
def buildAugmentedPrompt (docs : List Doc) (prompt : String) : String :=
  "You are a helpful assistant that answers questions based on the provided context.\n\n    INSTRUCTIONS:\n    - Use the context below to answer the question\n    - If the context doesn\x27t contain enough information to fully answer the question, say so clearly\n    - Be specific and cite relevant parts of the context when possible\n    - If multiple sources provide conflicting information, acknowledge this\n\n    CONTEXT:\n    "
    ++ buildContext docs
    ++ "\n\n    QUESTION: " ++ prompt
    ++ "\n\n    Please provide a comprehensive answer based on the context above:"

/-- The prompt `generate` is handed when no relevant documents were
found (step 3 of `generateWithContext`). -/
def noContextPrompt (prompt : String) : String :=
  "Answer this question: " ++ prompt ++ "\n\nNote: No specific context documents were available."

/-- Step 3 of `generateWithContext` for an empty retrieval: fall back to
basic generation on the no-context prompt and cache that result under
the RAG key.  Unlike the update inside `generate`, this update is NOT
wrapped in its own try/catch, so its rejection propagates to the outer
catch. -/
def ragNoDocsPath (env : Env) (prompt ragKey : String) (evs : List Event) :
    Except String String × List Event :=
  let g := generate env (noContextPrompt prompt)
  let evs := evs ++ g.2
  if env.cacheAvailable then
    match env.cacheUpdate ragKey g.1 with
    | .error e => (.error e, evs ++ [.cacheStore ragKey g.1])
    | .ok _ => (.ok g.1, evs ++ [.cacheStore ragKey g.1])
  else
    (.ok g.1, evs)

/-- Steps 4-7 of `generateWithContext` for a non-empty retrieval:
assemble the augmented prompt, invoke the backend, extract, cache under
the RAG key (again without a local catch), and return. -/
def ragDocsPath (env : Env) (prompt ragKey : String) (docs : List Doc)
    (evs : List Event) : Except String String × List Event :=
  let augmented := buildAugmentedPrompt docs prompt
  match env.ollamaInvoke augmented with
  | .error e => (.error e, evs ++ [.backendInvoke augmented])
  | .ok resp =>
    let responseText := extractResponseText resp
    let evs := evs ++ [.backendInvoke augmented]
    if env.cacheAvailable then
      match env.cacheUpdate ragKey responseText with
      | .error e => (.error e, evs ++ [.cacheStore ragKey responseText])
      | .ok _ => (.ok responseText, evs ++ [.cacheStore ragKey responseText])
    else
      (.ok responseText, evs)

/-- `generateWithContext` after its cache check: fall back to basic
generation when the vector store is not ready, otherwise retrieve and
branch on whether any documents survived. -/
def ragAfterCache (env : Env) (prompt : String) (maxDocs : Nat) (minScore : Rat)
    (includeScores : Bool) (ragKey : String) (evs : List Event) :
    Except String String × List Event :=
  if env.vsReady = false then
    let g := generate env prompt
    (.ok g.1, evs ++ g.2)
  else
    let docs := retrieveDocs env prompt maxDocs minScore includeScores
    let evs := evs ++ [.vectorSearch prompt maxDocs]
    if docs.isEmpty then ragNoDocsPath env prompt ragKey evs
    else ragDocsPath env prompt ragKey docs evs

/-- The try-block of `generateWithContext`: compute the RAG key, check
the cache (same JS truthiness test as in `generate`), then proceed. -/
def ragBody (env : Env) (prompt : String) (maxDocs : Nat) (minScore : Rat)
    (includeScores : Bool) : Except String String × List Event :=
  let ragKey := ragCacheKey prompt maxDocs minScore
  if env.cacheAvailable then
    match env.cacheLookup ragKey with
    | .error e => (.error e, [.cacheLookup ragKey])
    | .ok (some cached) =>
      if cached ≠ "" then (.ok cached, [.cacheLookup ragKey])
      else ragAfterCache env prompt maxDocs minScore includeScores ragKey [.cacheLookup ragKey]
    | .ok none =>
      ragAfterCache env prompt maxDocs minScore includeScores ragKey [.cacheLookup ragKey]
  else
    ragAfterCache env prompt maxDocs minScore includeScores ragKey []

/-- `LLMService.generateWithContext`: the try-block, with the catch
falling back to the basic `generate(prompt)` on any rejection. -/
def generateWithContext (env : Env) (prompt : String) (maxDocs : Nat) (minScore : Rat)
    (includeScores : Bool) : String × List Event :=
  match ragBody env prompt maxDocs minScore includeScores with
  | (.ok s, evs) => (s, evs)
  | (.error _, evs) =>
    let g := generate env prompt
    (g.1, evs ++ g.2)

/-! ### The vector store (`VectorStoreService`) -/

/-- Outcome of the collection-metadata fetch in `ensureCollection`:
HTTP 200 with the optional persisted vector width, HTTP 404, another
status, or a rejected fetch. -/
inductive CollResp where
  | found (dims : Option Nat)
  | missing
  | badStatus (code : Nat)
  | netError (e : String)

/-- The vector-store collaborators: the width detected from the
embedding model (`getEmbeddingDimensions` never rejects — it falls back
to 384), the collection fetch, the collection-creation PUT (status code
or rejection), the LangChain `ensureCollection` fallback, and the raw
index searches of the underlying `QdrantVectorStore`. -/
structure VSEnv where
  detectedDims : Nat
  collResp : CollResp
  createResp : Except String Nat
  lcEnsure : Except String Unit
  rawSearch : String → Nat → Option String → Except String (List Doc)
  rawSearchWithScore : String → Nat → Option String → Except String (List (Doc × Rat))

/-- `VectorStoreService.ensureCollection`: on 200, compare the persisted
width with the expected one and reject with the dimension-mismatch
error when both are known and differ; on 404, create the collection and
reject unless the creation succeeds; on any other status or transport
error, reject.  On every success path the LangChain fallback runs
last. -/
def ensureCollection (env : VSEnv) (expectedDims : Nat) : Except String Unit :=
  match env.collResp with
  | .found (some actual) =>
    if actual ≠ expectedDims then
      .error ("Dimension mismatch: collection=" ++ toString actual ++
        ", model=" ++ toString expectedDims)
    else env.lcEnsure
  | .found none => env.lcEnsure
  | .missing =>
    match env.createResp with
    | .error e => .error e
    | .ok status =>
      if 200 ≤ status ∧ status < 300 then env.lcEnsure
      else .error ("Failed to create collection: " ++ toString status)
  | .badStatus code => .error ("Failed to check collection: " ++ toString code)
  | .netError e => .error e

/-- The service state the initializer leaves behind: the `isInitialized`
flag and whether `this.vectorStore` was assigned. -/
structure VSState where
  isInitialized : Bool
  hasStore : Bool
deriving DecidableEq, Repr

/-- `initializeVectorStore`: the `QdrantVectorStore` is constructed
first (so `hasStore` holds either way), then `ensureCollection` decides
whether `isInitialized` becomes true; its rejection is caught and
leaves `isInitialized` false without rethrowing. -/
def initializeVectorStore (env : VSEnv) : VSState :=
  match ensureCollection env env.detectedDims with
  | .ok _ => ⟨true, true⟩
  | .error _ => ⟨false, true⟩

/-- `VectorStoreService.isReady`. -/
def vsIsReady (s : VSState) : Bool :=
  s.isInitialized && s.hasStore

/-- `VectorStoreService.ensureInitialized`: retry initialization when
not ready and reject if it still failed. -/
def vsEnsureInitialized (env : VSEnv) (s : VSState) : Except String VSState :=
  if s.isInitialized && s.hasStore then .ok s
  else
    let s2 := initializeVectorStore env
    if s2.isInitialized && s2.hasStore then .ok s2
    else .error "Vector store initialization failed"

/-- `VectorStoreService.similaritySearch`: ensure initialization, run
the raw search, and catch ANY rejection by returning the empty list.
The boolean records whether the raw index search was reached. -/
def similaritySearchE (env : VSEnv) (s : VSState) (q : String) (k : Nat)
    (filter : Option String) : Except String (List Doc) × Bool :=
  match vsEnsureInitialized env s with
  | .error _ => (.ok [], false)
  | .ok _ =>
    match env.rawSearch q k filter with
    | .error _ => (.ok [], true)
    | .ok r => (.ok r, true)

/-- `VectorStoreService.similaritySearchWithScore`: same structure as
`similaritySearchE` (the extra dimension-mismatch logging in its catch
does not change the returned value). -/
def similaritySearchWithScoreE (env : VSEnv) (s : VSState) (q : String) (k : Nat)
    (filter : Option String) : Except String (List (Doc × Rat)) × Bool :=
  match vsEnsureInitialized env s with
  | .error _ => (.ok [], false)
  | .ok _ =>
    match env.rawSearchWithScore q k filter with
    | .error _ => (.ok [], true)
    | .ok r => (.ok r, true)

/-- The structured result of `VectorStoreService.healthCheck`. -/
structure VSHealth where
  initialized : Bool
  connected : Bool
  dims : Option Nat
  error : Option String
deriving DecidableEq, Repr

/-- `VectorStoreService.healthCheck`: when the service is not
initialized it reports an error without touching the index; otherwise
it probes with a trivial one-result search on the underlying store and
reports either success or the caught error. -/
def vsHealthCheck (env : VSEnv) (s : VSState) : VSHealth :=
  if !(s.isInitialized && s.hasStore) then
    ⟨false, false, none, some "Vector store not initialized"⟩
  else
    match env.rawSearch "health check" 1 none with
    | .error e => ⟨s.isInitialized, false, none, some e⟩
    | .ok _ => ⟨true, true, some env.detectedDims, none⟩

/-! ### Concrete collaborator instances used to witness the theorems -/

/-- A backend response object whose `content` field is present but falsy
(the empty string) while `text` is present and truthy. -/
def exC9 : JSValue :=
  JSValue.obj (some (JSValue.str "")) (some (JSValue.str "hi")) none none none
    "[object Object]"

/-- The empty keyspace. -/
def stEmpty : Store := fun _ => none

/-- A Redis client whose connection succeeds but whose every operation
rejects with `boom`. -/
def cFail : RedisClient where
  connectOk := .ok ()
  rGet := fun _ => .error "boom"
  rSetEx := fun _ _ _ => .error "boom"
  rSet := fun _ _ => .error "boom"
  rDel := fun _ => .error "boom"
  rDelMany := fun _ => .error "boom"
  rExists := fun _ => .error "boom"
  rExpire := fun _ _ => .error "boom"
  rKeys := fun _ => .error "boom"

/-- An orchestrator environment whose cache returns the empty string for
every key: a stored value that is falsy in JS. -/
def envHitEmpty : Env where
  cacheAvailable := true
  cacheLookup := fun _ => .ok (some "")
  cacheUpdate := fun _ _ => .ok ()
  ollamaInvoke := fun _ => .ok (.str "fresh")
  vsReady := false
  vsSearch := fun _ _ => []
  vsSearchWithScore := fun _ _ => []

/-- An orchestrator environment with a non-empty cached value for every
key. -/
def envHit : Env where
  cacheAvailable := true
  cacheLookup := fun _ => .ok (some "cached!")
  cacheUpdate := fun _ _ => .ok ()
  ollamaInvoke := fun _ => .ok (.str "fresh")
  vsReady := false
  vsSearch := fun _ _ => []
  vsSearchWithScore := fun _ _ => []

/-- An orchestrator environment whose cache lookup rejects. -/
def envLookupFail : Env where
  cacheAvailable := true
  cacheLookup := fun _ => .error "cache down"
  cacheUpdate := fun _ _ => .ok ()
  ollamaInvoke := fun _ => .ok (.str "x")
  vsReady := false
  vsSearch := fun _ _ => []
  vsSearchWithScore := fun _ _ => []

/-- An orchestrator environment with a working cache, a ready vector
store that finds nothing, and an echoing backend. -/
def envNoCtx : Env where
  cacheAvailable := true
  cacheLookup := fun _ => .ok none
  cacheUpdate := fun _ _ => .ok ()
  ollamaInvoke := fun p => .ok (.str ("ans: " ++ p))
  vsReady := true
  vsSearch := fun _ _ => []
  vsSearchWithScore := fun _ _ => []

/-- Documents for the score-filtering scenario of the spec. -/
def docA : Doc := ⟨"AI is a field of CS", some "a.txt", none⟩

def docB : Doc := ⟨"Qdrant is a vector database", some "b.txt", none⟩

def docC : Doc := ⟨"Unrelated text", some "c.txt", none⟩

/-- An orchestrator environment without a cache service whose scored
search returns the spec scenario scores 0.9, 0.6, 0.2. -/
def envScored : Env where
  cacheAvailable := false
  cacheLookup := fun _ => .ok none
  cacheUpdate := fun _ _ => .ok ()
  ollamaInvoke := fun _ => .ok (.str "ok")
  vsReady := true
  vsSearch := fun _ _ => []
  vsSearchWithScore := fun _ _ => [(docA, 9 / 10), (docB, 3 / 5), (docC, 1 / 5)]

/-- A vector-store environment whose persisted collection width (384)
differs from the detected embedding width (1024). -/
def vsEnvMm : VSEnv where
  detectedDims := 1024
  collResp := .found (some 384)
  createResp := .ok 200
  lcEnsure := .ok ()
  rawSearch := fun _ _ _ => .ok []
  rawSearchWithScore := fun _ _ _ => .ok []

/-- A vector-store environment that initializes fine but whose raw index
searches reject. -/
def vsEnvDown : VSEnv where
  detectedDims := 4
  collResp := .found (some 4)
  createResp := .ok 200
  lcEnsure := .ok ()
  rawSearch := fun _ _ _ => .error "index down"
  rawSearchWithScore := fun _ _ _ => .error "index down"

/-! ### Helper lemmas -/

/-- The adapter-prefixed form of a key is never the key itself. -/
theorem cacheTag_append_ne (k : String) : "cache:" ++ k ≠ k := by
  intro h
  have h2 := congrArg String.length h
  rw [String.length_append, show ("cache:").length = 6 from rfl] at h2
  omega

/-- Two cache keys agree exactly on their hash components: the fixed
`llm:<model>:temp0.7:` preamble cancels. -/
theorem createCacheKey_inj {a b : String}
    (h : createCacheKey a = createCacheKey b) : hashPrompt a = hashPrompt b := by
  have h2 := congrArg String.data h
  simp only [createCacheKey, String.data_append, List.append_assoc] at h2
  exact String.ext
    (List.append_cancel_left (List.append_cancel_left (List.append_cancel_left h2)))

/-- C9 (counterexample): on an object whose `content` field is present
but falsy (the empty string) while `text` holds `hi`, the claimed
first-present-field extraction yields the empty string, but
`extractResponseText` skips the falsy field and yields `hi`. -/
theorem extract_text_skips_present_falsy_field :
    claimedExtractText exC9 = "" ∧ extractResponseText exC9 = "hi" ∧
    claimedExtractText exC9 ≠ extractResponseText exC9 := by
  refine ⟨rfl, rfl, ?_⟩
  decide

/-- C9 (amended): `extractResponseText` returns the value itself when it
is a string, otherwise the string conversion of the first field that is
present AND truthy in the order `content`, `text`, `message`, `output`,
`response`, otherwise a best-effort string conversion (the object's
`toString` result, or `String(value)` for non-objects). -/
theorem extract_text_matches_truthy_field_order (v : JSValue) :
    extractResponseText v = amendedExtractText v := by
  cases v with
  | str s => rfl
  | num n => rfl
  | nullv => rfl
  | obj c t m o r ts =>
    simp only [extractResponseText, amendedExtractText, List.findSome?]
    cases tryField c <;> cases tryField t <;> cases tryField m <;>
      cases tryField o <;> cases tryField r <;> simp [jsToString]

/-- C10: `SimpleCacheAdapter.update`/`lookup` address the underlying
keyspace at `cache:` + key while the direct `set`/`get` address the key
itself; hence a direct `set(k, v)` is invisible to `lookup(k)` and an
adapter `update(k, v)` is invisible to `get(k)`. -/
theorem adapter_and_direct_ops_use_disjoint_keys (st : Store) (k v : String)
    (_hk : globPrefixMatch "cache:" k = false) :
    adapterStoreUpdate st k v ("cache:" ++ k) = some v ∧
    adapterStoreLookup st k = st ("cache:" ++ k) ∧
    storeGet (storeSet st k v) k = some v ∧
    adapterStoreLookup (adapterStoreUpdate st k v) k = some v ∧
    adapterStoreLookup (storeSet st k v) k = adapterStoreLookup st k ∧
    storeGet (adapterStoreUpdate st k v) k = storeGet st k := by
  have hne := cacheTag_append_ne k
  refine ⟨?_, rfl, ?_, ?_, ?_, ?_⟩
  · simp [adapterStoreUpdate, storeSet]
  · simp [storeGet, storeSet]
  · simp [adapterStoreLookup, adapterStoreUpdate, storeGet, storeSet]
  · simp [adapterStoreLookup, storeGet, storeSet, hne]
  · simp [adapterStoreUpdate, storeGet, storeSet]
    intro h
    exact (hne h.symm).elim

/-- C10 witness at the empty keyspace with key `a`, value `x`. -/
theorem adapter_and_direct_ops_use_disjoint_keys_witness :
    adapterStoreLookup (storeSet stEmpty "a" "x") "a" = adapterStoreLookup stEmpty "a" ∧
    storeGet (adapterStoreUpdate stEmpty "a" "x") "a" = storeGet stEmpty "a" ∧
    adapterStoreLookup (adapterStoreUpdate stEmpty "a" "x") "a" = some "x" := by
  have h := adapter_and_direct_ops_use_disjoint_keys stEmpty "a" "x" (by decide)
  exact ⟨h.2.2.2.2.1, h.2.2.2.2.2, h.2.2.2.1⟩

set_option maxRecDepth 100000

/-- C5 (counterexample): the plain-generation cache key of the prompt
`rag:aa:docs3:score0` coincides with the RAG cache key of prompt `bB`
with `maxDocs = 3`, `minScore = 0` (the rolling hash collides on `aa`
versus `bB`), and that shared key lies in the `llm:` namespace, not in
a `rag:` namespace: the plain and RAG key sets are not disjoint by
prefix. -/
theorem plain_and_rag_cache_keys_collide :
    createCacheKey "rag:aa:docs3:score0" = ragCacheKey "bB" 3 0 ∧
    globPrefixMatch "llm:" (ragCacheKey "bB" 3 0) = true ∧
    globPrefixMatch "rag:" (ragCacheKey "bB" 3 0) = false := by
  decide

/-- C5 (amended): every plain-generation key and every RAG key lies in
the `llm:` namespace (the `rag:` marker is only hashed into the
payload, so the two generation key sets are not disjoint — see the
collision counterexample), while the health-probe key `healthcheck`
lies outside it; a pattern flush scoped to `llm:*` therefore never
matches the health key, and one scoped to `healthcheck*` never matches
a generation key. -/
theorem cache_key_namespaces_amended (p : String) (d : Nat) (s : Rat) :
    globPrefixMatch "llm:" (createCacheKey p) = true ∧
    globPrefixMatch "llm:" (ragCacheKey p d s) = true ∧
    globPrefixMatch "llm:" "healthcheck" = false ∧
    globPrefixMatch "healthcheck" "healthcheck" = true ∧
    (∀ key, globPrefixMatch "llm:" key = true →
      globPrefixMatch "healthcheck" key = false) := by
  have hpre : ∀ q : String, globPrefixMatch "llm:" (createCacheKey q) = true := by
    intro q
    simp only [globPrefixMatch, createCacheKey, String.data_append,
      List.isPrefixOf_iff_prefix, List.append_assoc]
    have h1 : "llm:".data = ['l', 'l', 'm', ':'] := rfl
    have h2 : ("llm:" ++ modelName).data =
        "llm:".data ++ modelName.data := by simp [String.data_append]
    exact ⟨modelName.data ++ ((":temp0.7:").data ++ (hashPrompt q).data), rfl⟩
  refine ⟨hpre p, hpre (ragPayload p d s), by decide, by decide, ?_⟩
  intro key hkey
  simp only [globPrefixMatch, List.isPrefixOf_iff_prefix] at hkey
  obtain ⟨t, ht⟩ := hkey
  have hh : "healthcheck".data = 'h' :: "ealthcheck".data := rfl
  simp only [globPrefixMatch, ← ht, hh]
  simp [List.isPrefixOf]

/-- C5 witness: instantiating the amended statement at concrete inputs,
the flush namespaces separate: the key for prompt `x` is an `llm:` key
and is not matched by a `healthcheck`-scoped pattern. -/
theorem cache_key_namespaces_amended_witness :
    globPrefixMatch "llm:" (createCacheKey "x") = true ∧
    globPrefixMatch "healthcheck" (createCacheKey "x") = false := by
  have h := cache_key_namespaces_amended "x" 3 0
  exact ⟨h.1, h.2.2.2.2 (createCacheKey "x") h.1⟩

/-- C8: for every client state, the cache read operations (`lookup`,
`get`, `exists`) resolve with their miss value (`null` / `false`) when
the connection or the underlying read rejects, and never reject
themselves; the write operations (`update`, `set`, `del`, `expire`,
`flushCache`) propagate the underlying rejection to their caller. -/
theorem cache_reads_degrade_writes_propagate (c : RedisClient) (k v pat : String)
    (t : Nat) :
    (∃ r, csLookup c k = .ok r) ∧
    (∃ r, csGet c k = .ok r) ∧
    (∃ b, csExists c k = .ok b) ∧
    (∀ e, c.connectOk = .error e →
      csLookup c k = .ok none ∧ csGet c k = .ok none ∧ csExists c k = .ok false) ∧
    (∀ e, c.rGet ("cache:" ++ k) = .error e → csLookup c k = .ok none) ∧
    (∀ e, c.rGet k = .error e → csGet c k = .ok none) ∧
    (∀ e, c.rExists k = .error e → csExists c k = .ok false) ∧
    (∀ e, c.connectOk = .error e →
      csUpdate c k v = .error e ∧ csSet c k v (some t) = .error e ∧
      csSet c k v none = .error e ∧ csDel c k = .error e ∧
      csExpire c k t = .error e ∧ csFlushCache c pat = .error e) ∧
    (∀ e, c.connectOk = .ok () →
      (c.rSetEx ("cache:" ++ k) 3600 v = .error e → csUpdate c k v = .error e) ∧
      (t ≠ 0 → c.rSetEx k t v = .error e → csSet c k v (some t) = .error e) ∧
      (c.rSet k v = .error e → csSet c k v none = .error e) ∧
      (c.rDel k = .error e → csDel c k = .error e) ∧
      (c.rExpire k t = .error e → csExpire c k t = .error e) ∧
      (c.rKeys pat = .error e → csFlushCache c pat = .error e)) := by
  refine ⟨?_, ?_, ?_, ?_, ?_, ?_, ?_, ?_, ?_⟩
  · cases hc : c.connectOk with
    | error e => exact ⟨none, by simp [csLookup, hc]⟩
    | ok u =>
      cases hg : c.rGet ("cache:" ++ k) with
      | error e => exact ⟨none, by simp [csLookup, adapterLookup, hc, hg]⟩
      | ok r => exact ⟨r, by simp [csLookup, adapterLookup, hc, hg]⟩
  · cases hc : c.connectOk with
    | error e => exact ⟨none, by simp [csGet, hc]⟩
    | ok u =>
      cases hg : c.rGet k with
      | error e => exact ⟨none, by simp [csGet, hc, hg]⟩
      | ok r => exact ⟨r, by simp [csGet, hc, hg]⟩
  · cases hc : c.connectOk with
    | error e => exact ⟨false, by simp [csExists, hc]⟩
    | ok u =>
      cases hg : c.rExists k with
      | error e => exact ⟨false, by simp [csExists, hc, hg]⟩
      | ok r => exact ⟨r == 1, by simp [csExists, hc, hg]⟩
  · intro e he
    exact ⟨by simp [csLookup, he], by simp [csGet, he], by simp [csExists, he]⟩
  · intro e he
    cases hc : c.connectOk with
    | error e2 => simp [csLookup, hc]
    | ok u => simp [csLookup, adapterLookup, hc, he]
  · intro e he
    cases hc : c.connectOk with
    | error e2 => simp [csGet, hc]
    | ok u => simp [csGet, hc, he]
  · intro e he
    cases hc : c.connectOk with
    | error e2 => simp [csExists, hc]
    | ok u => simp [csExists, hc, he]
  · intro e he
    exact ⟨by simp [csUpdate, he], by simp [csSet, he], by simp [csSet, he],
      by simp [csDel, he], by simp [csExpire, he], by simp [csFlushCache, he]⟩
  · intro e hc
    refine ⟨?_, ?_, ?_, ?_, ?_, ?_⟩
    · intro he; simp [csUpdate, adapterUpdate, hc, he]
    · intro ht he; simp [csSet, hc, ht, he]
    · intro he; simp [csSet, hc, he]
    · intro he; simp [csDel, hc, he]
    · intro he; simp [csExpire, hc, he]
    · intro he; simp [csFlushCache, hc, he]

/-- C8 witness: against a client whose reads and writes all reject,
`lookup` resolves with `null`, `exists` with `false`, and `update`,
`del` and `flushCache` reject with the underlying error. -/
theorem cache_reads_degrade_writes_propagate_witness :
    csLookup cFail "k" = .ok none ∧ csExists cFail "k" = .ok false ∧
    csUpdate cFail "k" "v" = .error "boom" ∧ csDel cFail "k" = .error "boom" ∧
    csFlushCache cFail "llm:*" = .error "boom" := by
  have h := cache_reads_degrade_writes_propagate cFail "k" "v" "llm:*" 7
  obtain ⟨-, -, -, -, h5, -, h7, -, h9⟩ := h
  have hw := h9 "boom" rfl
  exact ⟨h5 "boom" rfl, h7 "boom" rfl, hw.1 rfl, hw.2.2.2.1 rfl, hw.2.2.2.2.2 rfl⟩

/-- C4: for every environment, state, query, `k` and filter, the two
similarity searches never reject: when initialization rejects they
resolve with the empty list without reaching the raw index call, and
when the raw index call rejects they resolve with the empty list. -/
theorem similarity_search_returns_empty_on_error (env : VSEnv) (s : VSState)
    (q : String) (k : Nat) (f : Option String) :
    (∃ r b, similaritySearchE env s q k f = (.ok r, b)) ∧
    (∃ r b, similaritySearchWithScoreE env s q k f = (.ok r, b)) ∧
    (∀ e, vsEnsureInitialized env s = .error e →
      similaritySearchE env s q k f = (.ok [], false) ∧
      similaritySearchWithScoreE env s q k f = (.ok [], false)) ∧
    (∀ s2 e, vsEnsureInitialized env s = .ok s2 → env.rawSearch q k f = .error e →
      similaritySearchE env s q k f = (.ok [], true)) ∧
    (∀ s2 e, vsEnsureInitialized env s = .ok s2 →
      env.rawSearchWithScore q k f = .error e →
      similaritySearchWithScoreE env s q k f = (.ok [], true)) := by
  refine ⟨?_, ?_, ?_, ?_, ?_⟩
  · cases hi : vsEnsureInitialized env s with
    | error e => exact ⟨[], false, by simp [similaritySearchE, hi]⟩
    | ok s2 =>
      cases hr : env.rawSearch q k f with
      | error e => exact ⟨[], true, by simp [similaritySearchE, hi, hr]⟩
      | ok r => exact ⟨r, true, by simp [similaritySearchE, hi, hr]⟩
  · cases hi : vsEnsureInitialized env s with
    | error e => exact ⟨[], false, by simp [similaritySearchWithScoreE, hi]⟩
    | ok s2 =>
      cases hr : env.rawSearchWithScore q k f with
      | error e => exact ⟨[], true, by simp [similaritySearchWithScoreE, hi, hr]⟩
      | ok r => exact ⟨r, true, by simp [similaritySearchWithScoreE, hi, hr]⟩
  · intro e hi
    exact ⟨by simp [similaritySearchE, hi], by simp [similaritySearchWithScoreE, hi]⟩
  · intro s2 e hi hr
    simp [similaritySearchE, hi, hr]
  · intro s2 e hi hr
    simp [similaritySearchWithScoreE, hi, hr]

/-- C4 witness: against an index whose raw searches reject after a
successful initialization, both searches resolve with the empty list. -/
theorem similarity_search_returns_empty_on_error_witness :
    similaritySearchE vsEnvDown ⟨true, true⟩ "q" 2 none = (.ok [], true) ∧
    similaritySearchWithScoreE vsEnvDown ⟨true, true⟩ "q" 2 none = (.ok [], true) := by
  have h := similarity_search_returns_empty_on_error vsEnvDown ⟨true, true⟩ "q" 2 none
  exact ⟨h.2.2.2.1 ⟨true, true⟩ "index down" rfl rfl,
    h.2.2.2.2 ⟨true, true⟩ "index down" rfl rfl⟩

/-- C3: when the persisted collection width differs from the detected
embedding width, initialization leaves the service not ready,
`healthCheck` reports a non-empty error, and neither similarity search
reaches the raw index. -/
theorem dimension_mismatch_blocks_initialization (env : VSEnv) (a : Nat)
    (q : String) (k : Nat) (f : Option String)
    (hc : env.collResp = CollResp.found (some a))
    (hne : a ≠ env.detectedDims) :
    vsIsReady (initializeVectorStore env) = false ∧
    (∃ msg, (vsHealthCheck env (initializeVectorStore env)).error = some msg ∧
      msg ≠ "") ∧
    (similaritySearchE env (initializeVectorStore env) q k f).2 = false ∧
    (similaritySearchWithScoreE env (initializeVectorStore env) q k f).2 = false := by
  have hec : ensureCollection env env.detectedDims =
      .error ("Dimension mismatch: collection=" ++ toString a ++
        ", model=" ++ toString env.detectedDims) := by
    simp [ensureCollection, hc, hne]
  have hs : initializeVectorStore env = ⟨false, true⟩ := by
    simp [initializeVectorStore, hec]
  refine ⟨?_, ?_, ?_, ?_⟩
  · simp [vsIsReady, hs]
  · exact ⟨"Vector store not initialized", by simp [vsHealthCheck, hs], by decide⟩
  · simp [similaritySearchE, vsEnsureInitialized, hs, initializeVectorStore, hec]
  · simp [similaritySearchWithScoreE, vsEnsureInitialized, hs, initializeVectorStore, hec]

/-- C3 witness: a collection persisted at width 384 against a model
detected at width 1024 blocks initialization and is never searched. -/
theorem dimension_mismatch_blocks_initialization_witness :
    vsIsReady (initializeVectorStore vsEnvMm) = false ∧
    (vsHealthCheck vsEnvMm (initializeVectorStore vsEnvMm)).error =
      some "Vector store not initialized" ∧
    (similaritySearchE vsEnvMm (initializeVectorStore vsEnvMm) "q" 2 none).2 = false := by
  have h := dimension_mismatch_blocks_initialization vsEnvMm 384 "q" 2 none rfl
    (by decide)
  exact ⟨h.1, rfl, h.2.2.1⟩

/-- C1 (counterexample): with an empty string stored under the computed
cache key, `generate` does NOT return the stored value and DOES invoke
the backend: `if (cached)` is a JS truthiness test, so a stored falsy
value is treated as a miss. -/
theorem generate_cached_empty_string_invokes_backend :
    envHitEmpty.cacheLookup (createCacheKey "p") = .ok (some "") ∧
    (generate envHitEmpty "p").1 = "fresh" ∧
    (generate envHitEmpty "p").1 ≠ "" ∧
    Event.backendInvoke "p" ∈ (generate envHitEmpty "p").2 := by
  refine ⟨rfl, rfl, by decide, ?_⟩
  decide

/-- C1 (amended): for every prompt whose computed cache key has a
stored NON-EMPTY value, `generate` returns that cached value verbatim
and never reaches the backend-invoke step. -/
theorem generate_cache_hit_short_circuit (env : Env) (prompt v : String)
    (hc : env.cacheAvailable = true)
    (hl : env.cacheLookup (createCacheKey prompt) = .ok (some v))
    (hv : v ≠ "") :
    generate env prompt = (v, [Event.cacheLookup (createCacheKey prompt)]) ∧
    ∀ p, Event.backendInvoke p ∉ (generate env prompt).2 := by
  have hg : generate env prompt = (v, [Event.cacheLookup (createCacheKey prompt)]) := by
    simp [generate, generateBody, hc, hl, hv]
  refine ⟨hg, ?_⟩
  intro p hp
  rw [hg] at hp
  simp at hp

/-- C1 witness: a non-empty cached value is returned verbatim with no
backend invocation. -/
theorem generate_cache_hit_short_circuit_witness :
    generate envHit "p" = ("cached!", [Event.cacheLookup (createCacheKey "p")]) ∧
    ∀ p, Event.backendInvoke p ∉ (generate envHit "p").2 :=
  generate_cache_hit_short_circuit envHit "p" "cached!" rfl rfl (by decide)

/-- C2: `generate` converts every rejection of its try-block into the
degraded `Error generating response: ...` string and otherwise returns
the try-block result; in particular a rejecting cache lookup or a
rejecting backend invocation yields the degraded message, never a
propagated exception (the result type is always a plain string). -/
theorem generate_never_raises_degrades_to_message (env : Env) (prompt e : String) :
    ((generateBody env prompt).1 = .error e →
      (generate env prompt).1 = degradedMsg e) ∧
    (∀ s, (generateBody env prompt).1 = .ok s → (generate env prompt).1 = s) ∧
    (env.cacheAvailable = true → env.cacheLookup (createCacheKey prompt) = .error e →
      (generate env prompt).1 = degradedMsg e) ∧
    (env.cacheAvailable = true → env.cacheLookup (createCacheKey prompt) = .ok none →
      env.ollamaInvoke prompt = .error e → (generate env prompt).1 = degradedMsg e) ∧
    (env.cacheAvailable = false → env.ollamaInvoke prompt = .error e →
      (generate env prompt).1 = degradedMsg e) := by
  refine ⟨?_, ?_, ?_, ?_, ?_⟩
  · intro h
    rcases hb : generateBody env prompt with ⟨r, evs⟩
    rw [hb] at h
    simp only at h
    subst h
    simp [generate, hb]
  · intro s h
    rcases hb : generateBody env prompt with ⟨r, evs⟩
    rw [hb] at h
    simp only at h
    subst h
    simp [generate, hb]
  · intro hc hl
    simp [generate, generateBody, hc, hl]
  · intro hc hl hi
    simp [generate, generateBody, generateMissPath, hc, hl, hi]
  · intro hc hi
    simp [generate, generateBody, generateMissPath, hc, hi]

/-- C2 witness: with a rejecting cache lookup, `generate` returns the
degraded message for that error. -/
theorem generate_never_raises_degrades_to_message_witness :
    (generate envLookupFail "p").1 = degradedMsg "cache down" :=
  (generate_never_raises_degrades_to_message envLookupFail "p" "cache down").2.2.1
    rfl rfl

/-- On the documents path, the backend is always invoked with the
augmented prompt built from exactly the surviving documents. -/
theorem mem_ragDocsPath_events (env : Env) (prompt ragKey : String)
    (docs : List Doc) (evs : List Event) :
    Event.backendInvoke (buildAugmentedPrompt docs prompt) ∈
      (ragDocsPath env prompt ragKey docs evs).2 := by
  cases hinv : env.ollamaInvoke (buildAugmentedPrompt docs prompt) with
  | error e => simp [ragDocsPath, hinv]
  | ok resp =>
    cases hup : env.cacheUpdate ragKey (extractResponseText resp) with
    | error e => cases hca : env.cacheAvailable <;> simp [ragDocsPath, hinv, hup, hca]
    | ok u => cases hca : env.cacheAvailable <;> simp [ragDocsPath, hinv, hup, hca]

/-- Every event of the try-block of `generateWithContext` is an event of
`generateWithContext` (the catch only appends further events). -/
theorem mem_generateWithContext_of_mem_ragBody (env : Env) (prompt : String)
    (maxDocs : Nat) (minScore : Rat) (includeScores : Bool) (x : Event)
    (hx : x ∈ (ragBody env prompt maxDocs minScore includeScores).2) :
    x ∈ (generateWithContext env prompt maxDocs minScore includeScores).2 := by
  rcases hb : ragBody env prompt maxDocs minScore includeScores with ⟨r, evs⟩
  rw [hb] at hx
  simp only at hx
  cases r with
  | ok s => simp [generateWithContext, hb, hx]
  | error e => simp [generateWithContext, hb, hx]

/-- C7: with `includeScores = true` and retrieved scores 0.9, 0.6, 0.2
against `minScore = 0.5`, exactly the first two documents survive the
`score >= minScore` filter, and the backend is invoked on the augmented
prompt assembled from exactly those two. -/
theorem score_filtering_selects_docs_at_or_above_min (env : Env) (prompt : String)
    (d1 d2 d3 : Doc)
    (h : env.vsSearchWithScore prompt 3 = [(d1, 9 / 10), (d2, 3 / 5), (d3, 1 / 5)]) :
    retrieveDocs env prompt 3 (1 / 2) true =
      [setScore d1 (9 / 10), setScore d2 (3 / 5)] ∧
    (env.cacheAvailable = false → env.vsReady = true →
      Event.backendInvoke
          (buildAugmentedPrompt [setScore d1 (9 / 10), setScore d2 (3 / 5)] prompt) ∈
        (generateWithContext env prompt 3 (1 / 2) true).2) := by
  have hr : retrieveDocs env prompt 3 (1 / 2) true =
      [setScore d1 (9 / 10), setScore d2 (3 / 5)] := by
    simp [retrieveDocs, h, List.filter]
    norm_num
  refine ⟨hr, ?_⟩
  intro hca hvr
  apply mem_generateWithContext_of_mem_ragBody
  simp only [ragBody, hca, if_neg]
  simp only [ragAfterCache, hvr, hr]
  simpa using mem_ragDocsPath_events env prompt
    (ragCacheKey prompt 3 (1 / 2)) [setScore d1 (9 / 10), setScore d2 (3 / 5)]
    [Event.vectorSearch prompt 3]

/-- C7 witness at the spec scenario documents and the query
`What is AI?`. -/
theorem score_filtering_selects_docs_at_or_above_min_witness :
    retrieveDocs envScored "What is AI?" 3 (1 / 2) true =
      [setScore docA (9 / 10), setScore docB (3 / 5)] ∧
    Event.backendInvoke
        (buildAugmentedPrompt [setScore docA (9 / 10), setScore docB (3 / 5)]
          "What is AI?") ∈
      (generateWithContext envScored "What is AI?" 3 (1 / 2) true).2 := by
  have h := score_filtering_selects_docs_at_or_above_min envScored "What is AI?"
    docA docB docC rfl
  exact ⟨h.1, h.2 rfl rfl⟩

/-- C6: when retrieval survives zero documents (vector store ready,
RAG-key cache miss), the result of `generateWithContext` is exactly the
result of basic generation on the no-context-note prompt, and that
result is stored under the RAG-specific key; the RAG key differs from
the basic key for the same prompt whenever their hash components
differ. -/
theorem no_context_fallback_cached_under_rag_key (env : Env) (prompt : String)
    (maxDocs : Nat) (minScore : Rat) (includeScores : Bool)
    (resp : String) (gevs : List Event)
    (hc : env.cacheAvailable = true)
    (hl : env.cacheLookup (ragCacheKey prompt maxDocs minScore) = .ok none)
    (hv : env.vsReady = true)
    (hd : retrieveDocs env prompt maxDocs minScore includeScores = [])
    (hg : generate env (noContextPrompt prompt) = (resp, gevs))
    (hu : env.cacheUpdate (ragCacheKey prompt maxDocs minScore) resp = .ok ()) :
    generateWithContext env prompt maxDocs minScore includeScores =
      (resp,
        Event.cacheLookup (ragCacheKey prompt maxDocs minScore) ::
          Event.vectorSearch prompt maxDocs :: gevs ++
            [Event.cacheStore (ragCacheKey prompt maxDocs minScore) resp]) ∧
    (hashPrompt (ragPayload prompt maxDocs minScore) ≠ hashPrompt prompt →
      ragCacheKey prompt maxDocs minScore ≠ createCacheKey prompt) := by
  constructor
  · simp [generateWithContext, ragBody, ragAfterCache, ragNoDocsPath, hc, hl, hv, hd,
      hg, hu]
  · intro hne heq
    exact hne (createCacheKey_inj heq)

/-- C6 witness: with an empty retrieval for `Q` (defaults `maxDocs = 3`,
`minScore = 0`, `includeScores = false`), the fallback response is the
basic generation on the no-context prompt, it is stored under the RAG
key, and that key really differs from the basic key of `Q`. -/
theorem no_context_fallback_cached_under_rag_key_witness :
    (generateWithContext envNoCtx "Q" 3 0 false =
      ((generate envNoCtx (noContextPrompt "Q")).1,
        Event.cacheLookup (ragCacheKey "Q" 3 0) ::
          Event.vectorSearch "Q" 3 :: (generate envNoCtx (noContextPrompt "Q")).2 ++
            [Event.cacheStore (ragCacheKey "Q" 3 0)
              (generate envNoCtx (noContextPrompt "Q")).1])) ∧
    ragCacheKey "Q" 3 0 ≠ createCacheKey "Q" := by
  have h := no_context_fallback_cached_under_rag_key envNoCtx "Q" 3 0 false
    (generate envNoCtx (noContextPrompt "Q")).1
    (generate envNoCtx (noContextPrompt "Q")).2 rfl rfl rfl rfl rfl rfl
  exact ⟨h.1, h.2 (by decide)⟩
